import Mathlib

/-!
# Verification of the fungi peer runtime against its specification

Shallow embedding of the fungi repository (a P2P UDP hole-punching client
with a central signaling registry) into Lean 4.

Embedded sources:
* `src/fungi/models/node.py` — the `Node` pydantic model (`Node`, `nodeEq`,
  `modelDump`);
* `src/fungi/client/client.py` — the `Client` runtime (`joinNetwork`,
  `leaveNetwork`, `connectTo`, `listenForConnection`, `receiveMessage`,
  `sendPunchMessages`, `keepAliveTick`, `startServer`, `stopServer`,
  `sendMessage`);
* `src/fungi/client/udp.py` — the `UDPServer` protocol class
  (`udpServerMethods`, `datagramReceived`), including the fact that it
  defines no `set_message_callback` and is constructed with the send
  socket in place of a callback;
* `src/fungi/server/service.py` — the registry storage keyed by
  `"<public_ip>:<public_port>"` (`nodeKey`, `registryUpsert`,
  `registryDelete`).

Modelling conventions:
* IP addresses are carried as their text form (`String`); `ip_address`
  normalisation is not modelled because the runtime only ever uses the
  text form (`str(target_ip)`) of the values it parses.
* Ports and seconds are `Nat`.
* Python `Optional[X]` is `Option X`; Python `str(None)` is the literal
  string `"None"` (`pyStrOptIp`, `pyStrOptNat`).
* HTTP and OS outcomes (status errors, request errors, bind failures,
  the ephemeral port the OS assigns to a socket bound to port 0) are
  passed to the embedded operations as explicit environment parameters.
* Cooperative async concurrency is modelled with discrete time: each
  received datagram carries the gap in seconds since the previous
  delivery, and a race of two tasks is resolved by comparing their
  completion times (ties go to the receive task, which `connect_to`
  inspects first).
* Python exceptions are modelled explicitly (`PyError`, `Except`): the
  receive path of this source is broken — `client.py:170` calls a method
  `UDPServer` does not define and `client.py:323` passes the send socket
  where a callback is expected — and the embedding reproduces the
  resulting `AttributeError` / `TypeError` instead of a working path.
-/

namespace Fungi

/-- A JSON scalar as produced by pydantic `model_dump(mode="json")`:
strings, integers, or `null`. -/
inductive Json where
  | str (s : String)
  | num (n : Nat)
  | null
deriving DecidableEq, Repr

/-- `src/fungi/models/node.py` — the `Node` model: `local_ip` (default
`"127.0.0.1"`), `local_port` (default `0`), and the optional reflexive
`public_ip` / `public_port` pair. -/
structure Node where
  local_ip : String := "127.0.0.1"
  local_port : Nat := 0
  public_ip : Option String := none
  public_port : Option Nat := none
deriving DecidableEq, Repr

/-- Python `str(x)` for an `Optional` IP address: `str(None)` is the
literal string `"None"`, otherwise the address text. -/
def pyStrOptIp : Option String → String
  | none => "None"
  | some s => s

/-- Python `str(x)` for an `Optional[int]`. -/
def pyStrOptNat : Option Nat → String
  | none => "None"
  | some n => toString n

/-- `Node.__eq__` (`src/fungi/models/node.py:39-52`): compares
`str(public_ip)`, `public_port`, `str(local_ip)` and `local_port` of the
two records and requires all four to agree. -/
def nodeEq (a b : Node) : Bool :=
  pyStrOptIp a.public_ip == pyStrOptIp b.public_ip
    && a.public_port == b.public_port
    && a.local_ip == b.local_ip
    && a.local_port == b.local_port

/-- JSON form of an optional IP address (`None` serializes to `null`). -/
def jsonOptIp : Option String → Json
  | none => .null
  | some s => .str s

/-- JSON form of an optional integer. -/
def jsonOptNat : Option Nat → Json
  | none => .null
  | some n => .num n

/-- `Node.model_dump(mode="json")`: the serialized record the client POSTs
and PUTs to the registry, sends as DELETE query parameters, and the server
stores (`model_dump_json`).  All four fields are serialized. -/
def modelDump (n : Node) : List (String × Json) :=
  [("local_ip", .str n.local_ip),
   ("local_port", .num n.local_port),
   ("public_ip", jsonOptIp n.public_ip),
   ("public_port", jsonOptNat n.public_port)]

/-- `src/fungi/server/service.py:33` — the storage key
`f"{node.public_ip}:{node.public_port}"`. -/
def nodeKey (n : Node) : String :=
  pyStrOptIp n.public_ip ++ ":" ++ pyStrOptNat n.public_port

/-- The registry's persistent hash (`redis` `hset` map keyed by
`nodeKey`, each value the serialized node record). -/
abbrev Registry := List (String × List (String × Json))

/-- `NetworkService._add_node_to_storage` — `hset` semantics: overwrite
the value at an existing key, otherwise append a new entry. -/
def registryUpsert (r : Registry) (n : Node) : Registry :=
  if r.any (fun kv => kv.1 == nodeKey n) then
    r.map (fun kv => if kv.1 == nodeKey n then (kv.1, modelDump n) else kv)
  else r ++ [(nodeKey n, modelDump n)]

/-- `NetworkService._remove_node_from_storage` — `hdel` semantics. -/
def registryDelete (r : Registry) (k : String) : Registry :=
  r.filter (fun kv => kv.1 != k)

/-- The `{"status": ..., "message": ...}` dictionaries returned by every
`Client` operation. -/
structure Res where
  status : String
  message : String
deriving DecidableEq, Repr

/-- A UDP datagram.  `srcPort = none` models a socket the OS has not
bound yet. -/
structure Datagram where
  payload : String
  srcIp : String
  srcPort : Option Nat
  dstIp : String
  dstPort : Nat
deriving DecidableEq, Repr

/-- Python exceptions raised by the embedded paths: `AttributeError`
(accessing a method the class does not define), `TypeError` (calling a
non-callable object), `RuntimeError` (raised explicitly at
`client.py:172`), and `ValueError` (failed tuple unpack / parse). -/
inductive PyError where
  | attributeError
  | typeError
  | runtimeError
  | valueError
deriving DecidableEq, Repr

/-- The methods the `UDPServer` class body (`src/fungi/client/udp.py`)
actually defines.  Note there is **no** `set_message_callback`. -/
def udpServerMethods : List String :=
  ["__init__", "connection_made", "datagram_received", "send_message",
   "set_connection_callback", "start", "stop"]

/-- Whether `set_message_callback` — the method `Client._receive_message`
calls at `client.py:170` — exists on `UDPServer`.  It does not. -/
def hasSetMessageCallback : Bool :=
  udpServerMethods.contains "set_message_callback"

/-- The `message_handler` argument `UDPServer` is constructed with.
udp.py:9 declares it as a `(message, addr) -> None` callable;
`client.py:323` actually passes `self._send_socket` — a socket object. -/
inductive MessageHandler where
  | socketObj
  | callback
deriving DecidableEq, Repr

/-- The handler the client actually installs:
`UDPServer(self._send_socket)` at `client.py:323`. -/
def clientMessageHandler : MessageHandler := .socketObj

/-- `UDPServer.datagram_received` (udp.py:29-37): decode the payload and
call `self._message_handler(message, addr)`.  When the handler is the
socket object the client passed, the call raises `TypeError` (a socket is
not callable); a genuine callback would receive the payload text and the
observed source address. -/
def datagramReceived (handler : MessageHandler) (d : Datagram) :
    Except PyError (String × String × Option Nat) :=
  match handler with
  | .socketObj => .error .typeError
  | .callback => .ok (d.payload, d.srcIp, d.srcPort)

/-- `Client._receive_message` (client.py:162-173): with no UDP server set,
raise `RuntimeError("UDP server not initialized")`; otherwise call
`self._udp_server.set_message_callback(future.set_result)` — an attribute
`UDPServer` does not define, so the lookup raises `AttributeError` before
any future can be awaited.  `next` stands for the message the awaited
future would yield if the callback could ever be installed. -/
def receiveMessage (udpServerSet : Bool) (next : String) :
    Except PyError String :=
  if !udpServerSet then .error .runtimeError
  else if hasSetMessageCallback then .ok next
  else .error .attributeError

/-- The mutable state of a `Client` (`src/fungi/client/client.py:32-39`):
its `Node` record, the `_server_status` flag, the separate `_send_socket`
created in `__init__` (its bound port, and whether it is still open), and
the receiving datagram transport (the port it is bound to, `none` while
no transport exists). -/
structure ClientState where
  node : Node
  serverStatus : Bool := false
  sendSocketBound : Option Nat := none
  sendSocketOpen : Bool := true
  transportPort : Option Nat := none
deriving DecidableEq, Repr

/-- `Client._async_get_ip_info` pins the STUN probe's `source_port` to
the node's `local_port` (`client.py:289`). -/
def stunSourcePort (n : Node) : Nat := n.local_port

/-- Outcome of `Client._start_server`'s two OS calls: the
`_send_socket.bind((local_ip, 0))` call and the
`create_datagram_endpoint` call, either of which can raise `OSError`. -/
inductive StartOutcome where
  | ok
  | sendBindErr
  | endpointErr
deriving DecidableEq, Repr

/-- `Client._start_server` (`client.py:311-334`).  When already running
it returns success unchanged.  Otherwise it binds the **separate**
`_send_socket` to `(local_ip, 0)` — the OS assigns the ephemeral port
`osPort` — and then creates the receiving datagram endpoint bound to
`(local_ip, local_port)`; on success `_server_status` becomes true. -/
def startServer (s : ClientState) (osPort : Nat) (outcome : StartOutcome) :
    ClientState × Res :=
  if s.serverStatus then
    (s, ⟨"success", "Server is already running"⟩)
  else
    match outcome with
    | .sendBindErr => (s, ⟨"fail", "Failed to start server"⟩)
    | .endpointErr =>
        ({ s with sendSocketBound := some osPort }, ⟨"fail", "Failed to start server"⟩)
    | .ok =>
        ({ s with
            sendSocketBound := some osPort,
            transportPort := some s.node.local_port,
            serverStatus := true },
         ⟨"success", "Server started"⟩)

/-- `Client._stop_server` (`client.py:336-352`): when running, closes the
transport and the send socket and clears `_server_status`. -/
def stopServer (s : ClientState) : ClientState × Res :=
  if !s.serverStatus then
    (s, ⟨"success", "Server is not running"⟩)
  else
    ({ s with transportPort := none, sendSocketOpen := false, serverStatus := false },
     ⟨"success", "Server has been stopped"⟩)

/-- `Client.send_message` (`client.py:191-207`): every outgoing datagram
— punch, pong or application message — is emitted with
`self._send_socket.sendto(...)`, i.e. from the separate send socket, so
its source port is whatever that socket is bound to. -/
def sendMessage (s : ClientState) (message : String) (targetIp : String)
    (targetPort : Nat) : Datagram :=
  { payload := message,
    srcIp := s.node.local_ip,
    srcPort := s.sendSocketBound,
    dstIp := targetIp,
    dstPort := targetPort }

/-- Outcome of one `httpx` request: 2xx, `HTTPStatusError` (from
`raise_for_status`), or `RequestError` (network failure). -/
inductive Http where
  | ok
  | statusErr
  | reqErr
deriving DecidableEq, Repr

/-- Environment of one `join_network` call: the STUN discovery outcome,
the POST outcome, and the two OS outcomes of `_start_server`. -/
structure JoinEnv where
  stun : Option (String × Nat)
  post : Http
  osPort : Nat
  start : StartOutcome
deriving DecidableEq, Repr

/-- `Client._discover_public_ip_and_port` returns the 2-tuple
`(external_ip, external_port)`, or `(None, None)` on failure. -/
def discoverResult : Option (String × Nat) → Option String × Option Nat
  | some (ip, p) => (some ip, some p)
  | none => (none, none)

/-- Python truthiness of the 2-tuple returned by
`_discover_public_ip_and_port`: a non-empty tuple is always truthy, even
`(None, None)`, so `if not await self._discover_public_ip_and_port():`
(`client.py:51`) never takes the failure branch. -/
def pairTruthy (_ : Option String × Option Nat) : Bool := true

/-- `Client.join_network` (`client.py:41-74`) acting on the client state
and the registry contents.  Already joined → success, unchanged.
Otherwise: run STUN discovery (its result is discarded and, due to tuple
truthiness, its failure branch is dead), POST the full `model_dump` of
the node, and on 2xx start the server.  A failed start is returned as-is
— there is no DELETE rolling back the insert. -/
def joinNetwork (s : ClientState) (reg : Registry) (env : JoinEnv) :
    ClientState × Registry × Res :=
  if s.serverStatus then
    (s, reg, ⟨"success", "Already part of the network"⟩)
  else if !pairTruthy (discoverResult env.stun) then
    (s, reg, ⟨"fail", "Failed to discover public IP and port"⟩)
  else
    match env.post with
    | .ok =>
        let reg1 := registryUpsert reg s.node
        let (s1, r1) := startServer s env.osPort env.start
        if r1.status != "success" then
          (s1, reg1, r1)
        else
          (s1, reg1, ⟨"success", "Joined network successfully"⟩)
    | .statusErr => (s, reg, ⟨"fail", "Failed to join network"⟩)
    | .reqErr => (s, reg, ⟨"fail", "An error occurred while requesting"⟩)

/-- `Client.leave_network` (`client.py:76-108`).  Not joined → success,
returned **before** the `try`, so the `finally` does not run and the
state is untouched.  Otherwise: DELETE from the registry; on 2xx stop
the server; on an HTTP or network error return failure **without**
stopping the server — only the `finally` block runs, clearing
`_server_status` while the transport and send socket stay open. -/
def leaveNetwork (s : ClientState) (reg : Registry) (del : Http) :
    ClientState × Registry × Res :=
  if !s.serverStatus then
    (s, reg, ⟨"success", "Not currently part of the network"⟩)
  else
    match del with
    | .ok =>
        let reg1 := registryDelete reg (nodeKey s.node)
        let (s1, _) := stopServer s
        ({ s1 with serverStatus := false }, reg1,
         ⟨"success", "Left the network successfully"⟩)
    | .statusErr =>
        ({ s with serverStatus := false }, reg, ⟨"fail", "Failed to leave network"⟩)
    | .reqErr =>
        ({ s with serverStatus := false }, reg,
         ⟨"fail", "An error occurred while requesting"⟩)

/-- Side effects the keep-alive loop body can issue.  `putNode` is the
registry PUT of `_update_node_info`; `stopEndpoint` / `startEndpoint`
are declared so the specification's rebinding obligation can be stated —
the embedded loop body (`client.py:232-242`) contains no call that would
emit them. -/
inductive Effect where
  | putNode (n : Node)
  | stopEndpoint
  | startEndpoint (port : Nat)
deriving DecidableEq, Repr

/-- One tick of `Client.keep_alive` (`client.py:232-242`): re-probe STUN;
if both values are present and the pair differs from the **stored public
pair**, overwrite `public_ip` / `public_port` and PUT the record to the
registry.  Nothing else happens: `local_port` is never consulted or
changed and the endpoint is never stopped or restarted. -/
def keepAliveTick (n : Node) (probe : Option (String × Nat)) :
    Node × List Effect :=
  match probe with
  | none => (n, [])
  | some (newIp, newPort) =>
    if !(some newIp == n.public_ip) || !(some newPort == n.public_port) then
      let n1 := { n with public_ip := some newIp, public_port := some newPort }
      (n1, [Effect.putNode n1])
    else
      (n, [])

/-- Python `str.startswith`, via the character lists (kept
kernel-computable). -/
def pyStartsWith (m pre : String) : Bool :=
  pre.toList.isPrefixOf m.toList

/-- Python `str.split(sep)` for a one-character separator, on a
character list: `""` splits to `[""]`, separators produce empty pieces. -/
def pySplitChar (sep : Char) : List Char → List (List Char)
  | [] => [[]]
  | c :: rest =>
    let r := pySplitChar sep rest
    if c = sep then [] :: r
    else
      match r with
      | h :: t => (c :: h) :: t
      | [] => [[c]]

/-- The ASCII whitespace Python `int()` strips around its argument. -/
def isPyWs (c : Char) : Bool :=
  c = ' ' || c = '\t' || c = '\n' || c = '\r' || c = '\x0b' || c = '\x0c'

/-- Decimal value of a digit list. -/
def digitsVal (cs : List Char) : Nat :=
  cs.foldl (fun acc c => acc * 10 + (c.toNat - 48)) 0

/-- Continuation of Python's decimal-digit grammar: `(["_"] digit)*` —
single underscores are permitted only between digits. -/
def pyDigitRunTail : List Char → Bool
  | [] => true
  | '_' :: c :: rest => c.isDigit && pyDigitRunTail rest
  | ['_'] => false
  | c :: rest => c.isDigit && pyDigitRunTail rest

/-- Python's decimal-digit grammar `digit (["_"] digit)*`. -/
def pyDigitRun : List Char → Bool
  | [] => false
  | c :: rest => c.isDigit && pyDigitRunTail rest

/-- Python `int(s)` for a decimal string: optional surrounding
whitespace, an optional single sign directly attached to the digits,
then decimal digits with single underscores permitted between digits.
`none` models the `ValueError`. -/
def pyInt (s : String) : Option Int :=
  let cs := ((s.toList.dropWhile isPyWs).reverse.dropWhile isPyWs).reverse
  match cs with
  | '+' :: rest =>
    if pyDigitRun rest then some (Int.ofNat (digitsVal (rest.filter (· ≠ '_'))))
    else none
  | '-' :: rest =>
    if pyDigitRun rest then some (-(Int.ofNat (digitsVal (rest.filter (· ≠ '_')))))
    else none
  | rest =>
    if pyDigitRun rest then some (Int.ofNat (digitsVal (rest.filter (· ≠ '_'))))
    else none

/-- One octet of an IPv4 dotted quad as `ipaddress.ip_address` accepts
it: 1–3 decimal digits, no leading zero (unless the octet is exactly
`0`), value at most 255. -/
def pyIpv4Octet (cs : List Char) : Bool :=
  decide (cs ≠ []) && cs.all Char.isDigit && decide (cs.length ≤ 3)
    && (decide (cs.length = 1) || decide (cs.head? ≠ some '0'))
    && decide (digitsVal cs ≤ 255)

/-- `ipaddress.ip_address` on a **colon-free** string: such a string can
never be an IPv6 text (every IPv6 form contains `:`), so it is accepted
exactly when it is a valid IPv4 dotted quad. -/
def pyIsIpv4 (s : String) : Bool :=
  match pySplitChar '.' s.toList with
  | [a, b, c, d] => pyIpv4Octet a && pyIpv4Octet b && pyIpv4Octet c && pyIpv4Octet d
  | _ => false

/-- The parsing a received `punch` message undergoes in the dispatch of
`Client._listen_for_connection` (`client.py:154-155`):
`sender_ip, sender_port = message.split(":")[1:]` — the tuple unpack
needs exactly three `:`-separated pieces — followed by
`ip_address(sender_ip)` and `int(sender_port)`.  After the colon split
the ip piece is colon-free, so `ip_address` accepts it exactly when it
is a valid IPv4 text (`pyIsIpv4`); the port follows Python's `int`
grammar (`pyInt`).  `none` models the resulting `ValueError` (which
nothing in the listener catches). -/
def parsePunchTail (m : String) : Option (String × Int) :=
  match pySplitChar ':' m.toList with
  | [_, ip, port] =>
    if pyIsIpv4 (String.mk ip) then
      (pyInt (String.mk port)).map (fun p => (String.mk ip, p))
    else none
  | _ => none

/-- How one run of `Client._listen_for_connection` ends: a `pong`
arrived (`established`), `asyncio.wait_for` raised the caught
`TimeoutError` (`timedOut`), or an uncaught exception killed the task
(`raised`). -/
inductive ListenEnd where
  | established
  | timedOut
  | raised (e : PyError)
deriving DecidableEq, Repr

/-- Observable outcome of one `_listen_for_connection` run: how it
ended, after how many seconds, and the destinations of the `pong`
replies it passed to `send_message` along the way. -/
structure ListenResult where
  finish : ListenEnd
  elapsed : Nat
  pongs : List (String × Int)
deriving DecidableEq, Repr

/-- `Client._listen_for_connection` (`client.py:142-160`) as the source
executes it, over a finite trace of incoming payloads each tagged with
the gap in seconds since the previous delivery (an exhausted trace
stands for silence, after which the pending wait times out).  Each loop
iteration awaits `_receive_message()` under
`asyncio.wait_for(..., timeout)`; running that coroutine is the first
thing the await does, so `receiveMessage`'s exception — in this program
always `AttributeError`, see `receiveMessage` — precedes any waiting and
is not the `asyncio.TimeoutError` the `except` clause catches: it kills
the task at once.  The dispatch written below the await in the source —
reply `pong` to the payload-parsed address of a `punch` and continue,
succeed on a `pong`, skip anything else, die on a `ValueError` from a
malformed punch — is transcribed faithfully even though
`receiveMessage`'s unconditional failure makes it unreachable. -/
def listenForConnection (udpServerSet : Bool) (timeout : Nat) :
    List (Nat × String) → ListenResult
  | [] =>
    match receiveMessage udpServerSet "" with
    | .error e => ⟨.raised e, 0, []⟩
    | .ok _ => ⟨.timedOut, timeout, []⟩
  | (gap, m) :: rest =>
    match receiveMessage udpServerSet m with
    | .error e => ⟨.raised e, 0, []⟩
    | .ok msg =>
      if timeout < gap then ⟨.timedOut, timeout, []⟩
      else if pyStartsWith msg "punch" then
        match parsePunchTail msg with
        | some (ip, p) =>
          let o := listenForConnection udpServerSet timeout rest
          ⟨o.finish, gap + o.elapsed, (ip, p) :: o.pongs⟩
        | none => ⟨.raised .valueError, gap, []⟩
      else if pyStartsWith msg "pong" then ⟨.established, gap, []⟩
      else
        let o := listenForConnection udpServerSet timeout rest
        ⟨o.finish, gap + o.elapsed, o.pongs⟩

/-- Python truthiness of an `Optional` IP address: `None` is falsy, an
`IPv4Address`/`IPv6Address` object is truthy. -/
def truthyOptIp : Option String → Bool
  | none => false
  | some _ => true

/-- Python truthiness of an `Optional[int]`: `None` and `0` are falsy. -/
def truthyOptNat : Option Nat → Bool
  | none => false
  | some n => n != 0

/-- `Client._validate_connection_prerequisites` (`client.py:293-309`):
self's public pair truthy, the other node's public pair truthy, and a
transport present. -/
def validatePrereqs (self other : Node) (transportUp : Bool) : Bool :=
  truthyOptIp self.public_ip && truthyOptNat self.public_port
    && truthyOptIp other.public_ip && truthyOptNat other.public_port
    && transportUp

/-- The punch payload `f"punch:{self._node.public_ip}:{self._node.public_port}"`
(`client.py:184`). -/
def punchPayload (self : Node) : String :=
  "punch:" ++ pyStrOptIp self.public_ip ++ ":" ++ pyStrOptNat self.public_port

/-- Number of punch attempts, one second apart (`client.py:182`). -/
def punchAttempts : Nat := 30

/-- Observable outcome of `_send_punch_messages`: when it finishes, and
the `(dstIp, dstPort, payload)` datagrams it sent. -/
structure PunchOutcome where
  elapsed : Nat
  sent : List (String × Nat × String)
deriving DecidableEq, Repr

/-- `Client._send_punch_messages` (`client.py:175-189`): if the target's
public pair is non-`None`, send `punchAttempts` punches one second apart
and finish (with a "no response" failure dict) after `punchAttempts`
seconds; otherwise fail immediately. -/
def sendPunchMessages (self other : Node) : PunchOutcome :=
  match other.public_ip, other.public_port with
  | some ip, some p =>
      ⟨punchAttempts, List.replicate punchAttempts (ip, p, punchPayload self)⟩
  | _, _ => ⟨0, []⟩

/-- `Client.connect_to` (`client.py:110-140`): after the prerequisite
check, race `_listen_for_connection` against `_send_punch_messages`
(`asyncio.wait(..., FIRST_COMPLETED)`) and cancel the pending task.
When the receive task finishes first (or ties — `connect_to` inspects it
first), its returned dict decides the result, and an exception it died
with is re-raised by `receive_task.result()` (`.error`).  The
prerequisite check requires `self._transport`, which `_start_server`
sets only after `self._udp_server` (client.py:323-324), so the listener
runs with the UDP server set — and therefore dies at once with
`AttributeError` at elapsed 0, always winning the race: with the
prerequisites met, `connect_to` never returns a result dictionary. -/
def connectTo (self other : Node) (transportUp : Bool) (timeout : Nat)
    (incoming : List (Nat × String)) : Except PyError Res :=
  if !validatePrereqs self other transportUp then
    .ok ⟨"fail", "Connection prerequisites not met"⟩
  else
    let L := listenForConnection true timeout incoming
    let P := sendPunchMessages self other
    if L.elapsed ≤ P.elapsed then
      match L.finish with
      | .established => .ok ⟨"success", "Connection established"⟩
      | .timedOut => .ok ⟨"fail", "Connection failed"⟩
      | .raised e => .error e
    else .ok ⟨"fail", "Connection failed"⟩

/-! ## Helper lemmas -/

theorem jsonOptIp_inj {x y : Option String} (h : jsonOptIp x = jsonOptIp y) :
    x = y := by
  cases x <;> cases y <;> simp_all [jsonOptIp]

theorem jsonOptNat_inj {x y : Option Nat} (h : jsonOptNat x = jsonOptNat y) :
    x = y := by
  cases x <;> cases y <;> simp_all [jsonOptNat]

theorem pyStrOptIp_inj_of_ne {x y : Option String} (hx : x ≠ some "None")
    (hy : y ≠ some "None") (h : pyStrOptIp x = pyStrOptIp y) : x = y := by
  cases x <;> cases y <;> simp_all [pyStrOptIp]

theorem hasSetMessageCallback_false : hasSetMessageCallback = false := by
  decide

theorem listenForConnection_dead (timeout : Nat)
    (incoming : List (Nat × String)) :
    listenForConnection true timeout incoming
      = ⟨.raised .attributeError, 0, []⟩ := by
  cases incoming <;>
    simp [listenForConnection, receiveMessage, hasSetMessageCallback_false]

/-! ## Claims -/

/-- C1: the spec mandates that every datagram be sent from the single
socket the receive task reads from, so the source port presented to the
peer equals the `local_port` given to STUN.  The code instead creates a
**separate** `_send_socket`, binds it to `(local_ip, 0)` — the comment in
`_start_server` even says "Use a different port for sending" — and routes
every `send_message` through it, while the receiving endpoint is bound to
`local_port`.  Evaluated at a failing input (STUN-probed `local_port`
40000, OS-assigned ephemeral port 54321): the emitted datagram's source
port is 54321, not 40000, which defeats the hole punching the client's
own docstrings promise. -/
theorem send_socket_differs_from_receive_endpoint :
    let s0 : ClientState :=
      { node := { local_ip := "192.168.1.7", local_port := 40000,
                  public_ip := some "1.2.3.4", public_port := some 40000 } }
    let s1 := (startServer s0 54321 .ok).1
    stunSourcePort s1.node = 40000 ∧
    s1.transportPort = some 40000 ∧
    (sendMessage s1 "punch:1.2.3.4:40000" "5.6.7.8" 50000).srcPort = some 54321 ∧
    (sendMessage s1 "punch:1.2.3.4:40000" "5.6.7.8" 50000).srcPort
      ≠ some (stunSourcePort s1.node) := by
  decide

/-- C2: the spec requires every `punch` delivered to the receive path to
be answered with exactly one `pong` addressed to the observed source.
The code answers none: delivering any datagram to the endpoint raises
`TypeError` inside `UDPServer.datagram_received` — the handler installed
at client.py:323 is the send **socket**, not a callable — and the
listener holding the pong-reply code dies with `AttributeError` on its
very first receive (client.py:170 calls `set_message_callback`, a method
`UDPServer` does not define) before processing any message.  Evaluated
at the failing input, and in general: for every trace the listener
emits no pong and terminates with the `AttributeError`. -/
theorem punch_never_answered :
    (datagramReceived clientMessageHandler
        { payload := "punch:9.9.9.9:1234", srcIp := "8.8.8.8",
          srcPort := some 5678, dstIp := "1.2.3.4", dstPort := 40000 }
      = .error .typeError) ∧
    (∀ (timeout : Nat) (incoming : List (Nat × String)),
      (listenForConnection true timeout incoming).pongs = [] ∧
      (listenForConnection true timeout incoming).finish
        = .raised .attributeError) := by
  refine ⟨rfl, fun timeout incoming => ?_⟩
  rw [listenForConnection_dead]
  exact ⟨rfl, rfl⟩

/-- C7 counterexample: two records with the same public pair but
different `local_port`s have **different** serialized forms, and the
serialized form contains the local pair. -/
theorem serialized_form_reveals_local_fields :
    let a : Node := { local_ip := "192.168.1.7", local_port := 1,
                      public_ip := some "1.2.3.4", public_port := some 40000 }
    let b : Node := { local_ip := "192.168.1.7", local_port := 2,
                      public_ip := some "1.2.3.4", public_port := some 40000 }
    a.public_ip = b.public_ip ∧ a.public_port = b.public_port ∧
    modelDump a ≠ modelDump b ∧
    ("local_port", Json.num 1) ∈ modelDump a ∧
    ("local_ip", Json.str "192.168.1.7") ∈ modelDump a := by
  decide

/-- C7 (amended): the serialized form transmitted to and stored by the
registry contains all four fields — the local pair included — and two
records serialize identically exactly when they agree on **all four**
fields, not merely on the public pair. -/
theorem modelDump_reveals_local_pair (a b : Node) :
    ("local_ip", Json.str a.local_ip) ∈ modelDump a ∧
    ("local_port", Json.num a.local_port) ∈ modelDump a ∧
    (modelDump a = modelDump b ↔ a = b) := by
  refine ⟨by simp [modelDump], by simp [modelDump], ?_, ?_⟩
  · intro h
    simp only [modelDump, List.cons.injEq, Prod.mk.injEq, Json.str.injEq,
      Json.num.injEq, and_true, true_and] at h
    obtain ⟨h1, h2, h3, h4⟩ := h
    have hip := jsonOptIp_inj h3
    have hp := jsonOptNat_inj h4
    cases a; cases b; simp_all
  · intro h; rw [h]

/-- C8 counterexample: two records with the same public pair but
different `local_port`s are **not** equal under `Node.__eq__`. -/
theorem nodeEq_distinguishes_same_public_pair :
    let a : Node := { local_ip := "192.168.1.7", local_port := 1,
                      public_ip := some "1.2.3.4", public_port := some 40000 }
    let b : Node := { local_ip := "192.168.1.7", local_port := 2,
                      public_ip := some "1.2.3.4", public_port := some 40000 }
    a.public_ip = b.public_ip ∧ a.public_port = b.public_port ∧
    nodeEq a b = false := by
  decide

/-- C8 (amended): `Node.__eq__` compares all **four** fields — the local
pair participates: for records whose public IPs are genuine addresses
(never the literal text `"None"`), `__eq__` holds exactly when the two
records are equal as whole records. -/
theorem nodeEq_iff_eq (a b : Node)
    (ha : a.public_ip ≠ some "None") (hb : b.public_ip ≠ some "None") :
    nodeEq a b = true ↔ a = b := by
  constructor
  · intro h
    simp only [nodeEq, Bool.and_eq_true, beq_iff_eq] at h
    obtain ⟨⟨⟨h1, h2⟩, h3⟩, h4⟩ := h
    have hip : a.public_ip = b.public_ip := pyStrOptIp_inj_of_ne ha hb h1
    cases a; cases b; simp_all
  · intro h; rw [h]; simp [nodeEq]

/-- Witness for `nodeEq_iff_eq`. -/
theorem nodeEq_iff_eq_witness :
    (nodeEq { local_port := 1, public_ip := some "1.2.3.4" }
        { local_port := 1, public_ip := some "1.2.3.4" } = true
      ↔ ({ local_port := 1, public_ip := some "1.2.3.4" } : Node)
          = { local_port := 1, public_ip := some "1.2.3.4" }) :=
  nodeEq_iff_eq _ _ (by decide) (by decide)

/-- C3 counterexample: from a fresh client and an empty registry, a
`join_network` call whose POST succeeds but whose endpoint start fails
returns failure and leaves the runtime unjoined — but the registry still
contains the freshly inserted entry: no rollback DELETE happens. -/
theorem failed_start_leaves_registry_entry :
    let n : Node := { local_ip := "192.168.1.7", local_port := 40000,
                      public_ip := some "1.2.3.4", public_port := some 40000 }
    let out := joinNetwork { node := n } []
      ⟨some ("1.2.3.4", 40000), .ok, 54321, .endpointErr⟩
    out.2.2.status = "fail" ∧
    out.1.serverStatus = false ∧
    out.2.1 = [(nodeKey n, modelDump n)] ∧
    out.2.1 ≠ [] := by
  decide

/-- C3 (amended): if the endpoint start fails after the registry insert
succeeded, `join_network` returns the failure and the runtime stays
unjoined, but the insert is **not** rolled back — the registry is left
exactly as the insert made it. -/
theorem joinNetwork_no_rollback_on_start_failure
    (s : ClientState) (reg : Registry) (stun : Option (String × Nat))
    (osPort : Nat) (outcome : StartOutcome)
    (hoff : s.serverStatus = false)
    (hfail : outcome ≠ .ok) :
    (joinNetwork s reg ⟨stun, .ok, osPort, outcome⟩).2.2.status = "fail" ∧
    (joinNetwork s reg ⟨stun, .ok, osPort, outcome⟩).1.serverStatus = false ∧
    (joinNetwork s reg ⟨stun, .ok, osPort, outcome⟩).2.1
      = registryUpsert reg s.node := by
  cases outcome <;> simp_all [joinNetwork, startServer, pairTruthy]

/-- Witness for `joinNetwork_no_rollback_on_start_failure`. -/
theorem joinNetwork_no_rollback_on_start_failure_witness :
    (joinNetwork { node := { local_port := 40000 } } []
        ⟨none, .ok, 54321, .sendBindErr⟩).2.2.status = "fail" ∧
    (joinNetwork { node := { local_port := 40000 } } []
        ⟨none, .ok, 54321, .sendBindErr⟩).1.serverStatus = false ∧
    (joinNetwork { node := { local_port := 40000 } } []
        ⟨none, .ok, 54321, .sendBindErr⟩).2.1
      = registryUpsert [] { local_port := 40000 } :=
  joinNetwork_no_rollback_on_start_failure { node := { local_port := 40000 } }
    [] none 54321 .sendBindErr (by decide) (by decide)

/-- C4 counterexample: a keep-alive tick whose STUN re-probe reports
port 40001 while `local_port` is 40000 merely updates the stored public
pair and PUTs the registry — `local_port` keeps its old value and no
endpoint stop or restart is issued. -/
theorem keepAlive_does_not_rebind_on_port_change :
    let n : Node := { local_ip := "192.168.1.7", local_port := 40000,
                      public_ip := some "1.2.3.4", public_port := some 40000 }
    let out := keepAliveTick n (some ("1.2.3.4", 40001))
    out.1.local_port = 40000 ∧
    Effect.stopEndpoint ∉ out.2 ∧
    Effect.startEndpoint 40001 ∉ out.2 ∧
    out.2 = [Effect.putNode { n with public_port := some 40001 }] := by
  decide

/-- C4 (amended): on a keep-alive tick where the re-probed pair differs
from the **stored public pair** (the comparison is against the public
pair, not `local_port`), the loop overwrites the stored public pair and
PUTs the updated record to the registry within that same tick — and does
nothing else: `local_port` is unchanged and the endpoint is neither
stopped nor restarted. -/
theorem keepAliveTick_updates_registry_only
    (n : Node) (newIp : String) (newPort : Nat)
    (hdiff : some newIp ≠ n.public_ip ∨ some newPort ≠ n.public_port) :
    keepAliveTick n (some (newIp, newPort))
      = ({ n with public_ip := some newIp, public_port := some newPort },
         [Effect.putNode
            { n with public_ip := some newIp, public_port := some newPort }]) ∧
    (keepAliveTick n (some (newIp, newPort))).1.local_port = n.local_port ∧
    ∀ e ∈ (keepAliveTick n (some (newIp, newPort))).2,
      e = Effect.putNode
            { n with public_ip := some newIp, public_port := some newPort } := by
  have hb : (!(some newIp == n.public_ip) || !(some newPort == n.public_port))
      = true := by
    rcases hdiff with h | h <;> simp [h]
  refine ⟨?_, ?_, ?_⟩ <;> simp [keepAliveTick, hb]

/-- Witness for `keepAliveTick_updates_registry_only`. -/
theorem keepAliveTick_updates_registry_only_witness :
    keepAliveTick { local_port := 40000, public_ip := some "1.2.3.4",
                    public_port := some 40000 } (some ("1.2.3.4", 40001))
      = ({ local_port := 40000, public_ip := some "1.2.3.4",
           public_port := some 40001 },
         [Effect.putNode { local_port := 40000, public_ip := some "1.2.3.4",
                           public_port := some 40001 }]) ∧
    (keepAliveTick { local_port := 40000, public_ip := some "1.2.3.4",
                     public_port := some 40000 }
        (some ("1.2.3.4", 40001))).1.local_port
      = ({ local_port := 40000, public_ip := some "1.2.3.4",
           public_port := some 40000 } : Node).local_port ∧
    ∀ e ∈ (keepAliveTick { local_port := 40000, public_ip := some "1.2.3.4",
                           public_port := some 40000 }
            (some ("1.2.3.4", 40001))).2,
      e = Effect.putNode { local_port := 40000, public_ip := some "1.2.3.4",
                           public_port := some 40001 } :=
  keepAliveTick_updates_registry_only _ "1.2.3.4" 40001 (Or.inr (by decide))

/-- C5 counterexample: a joined client whose registry DELETE fails with
an HTTP error gets a failure result with the transport and the send
socket still **open** — only the joined flag is cleared; the local
shutdown does not happen. -/
theorem leave_failure_keeps_endpoint_open :
    let n : Node := { local_ip := "192.168.1.7", local_port := 40000,
                      public_ip := some "1.2.3.4", public_port := some 40000 }
    let s : ClientState := { node := n, serverStatus := true,
                             sendSocketBound := some 54321,
                             transportPort := some 40000 }
    let out := leaveNetwork s [(nodeKey n, modelDump n)] .statusErr
    out.2.2.status = "fail" ∧
    out.1.transportPort = some 40000 ∧
    out.1.sendSocketOpen = true ∧
    out.1.serverStatus = false := by
  decide

/-- C5 (amended): when the registry DELETE fails with an HTTP or network
error, `leave_network` surfaces the failure but skips the local
shutdown: only the joined flag is cleared (by the `finally` block), while
the transport and the send socket remain exactly as they were. -/
theorem leaveNetwork_on_registry_error_only_clears_flag
    (s : ClientState) (reg : Registry) (del : Http)
    (hjoined : s.serverStatus = true)
    (herr : del ≠ .ok) :
    (leaveNetwork s reg del).2.2.status = "fail" ∧
    (leaveNetwork s reg del).1 = { s with serverStatus := false } ∧
    (leaveNetwork s reg del).1.transportPort = s.transportPort ∧
    (leaveNetwork s reg del).1.sendSocketOpen = s.sendSocketOpen ∧
    (leaveNetwork s reg del).2.1 = reg := by
  cases del <;> simp_all [leaveNetwork]

/-- Witness for `leaveNetwork_on_registry_error_only_clears_flag`. -/
theorem leaveNetwork_on_registry_error_only_clears_flag_witness :
    (leaveNetwork { node := {}, serverStatus := true,
                    transportPort := some 40000 } [] .reqErr).2.2.status
      = "fail" ∧
    (leaveNetwork { node := {}, serverStatus := true,
                    transportPort := some 40000 } [] .reqErr).1
      = { node := {}, serverStatus := false, transportPort := some 40000 } ∧
    (leaveNetwork { node := {}, serverStatus := true,
                    transportPort := some 40000 } [] .reqErr).1.transportPort
      = ({ node := {}, serverStatus := true,
           transportPort := some 40000 } : ClientState).transportPort ∧
    (leaveNetwork { node := {}, serverStatus := true,
                    transportPort := some 40000 } [] .reqErr).1.sendSocketOpen
      = ({ node := {}, serverStatus := true,
           transportPort := some 40000 } : ClientState).sendSocketOpen ∧
    (leaveNetwork { node := {}, serverStatus := true,
                    transportPort := some 40000 } [] .reqErr).2.1 = [] :=
  leaveNetwork_on_registry_error_only_clears_flag _ [] .reqErr rfl (by decide)

/-- C6: the spec says a `pong` completes exactly the outstanding
sessions whose target's public pair matches.  The code completes none:
with the prerequisites met, the session's receive task raises
`AttributeError` on its very first step (client.py:170 calls
`set_message_callback`, which `UDPServer` does not define), `connect_to`
re-raises it from `receive_task.result()`, and this happens for every
incoming trace — a `pong` from a matching or a non-matching peer alike —
and for every target. -/
theorem no_pong_completes_any_session
    (self other : Node) (transportUp : Bool) (timeout : Nat)
    (incoming : List (Nat × String))
    (h : validatePrereqs self other transportUp = true) :
    connectTo self other transportUp timeout incoming
      = .error .attributeError := by
  simp [connectTo, h, listenForConnection_dead, Nat.zero_le]

/-- Witness for `no_pong_completes_any_session`: a session toward peer
`5.6.7.8:50000` receiving a `pong` one second in (conceptually from the
unrelated peer `9.9.9.9:60000`; the source address never reaches the
dispatcher) is not completed — the exception propagates instead. -/
theorem no_pong_completes_any_session_witness :
    connectTo { public_ip := some "1.2.3.4", public_port := some 40000 }
        { public_ip := some "5.6.7.8", public_port := some 50000 }
        true 30 [(1, "pong")]
      = .error .attributeError :=
  no_pong_completes_any_session _ _ true 30 [(1, "pong")] (by decide)

/-- C9: the spec says that with the preconditions met `connect_to` waits
bounded by the caller's timeout — success on a pong before the deadline,
a Timeout failure once the deadline elapses.  The code produces neither:
for every trace and every timeout its receive task dies instantly with
`AttributeError` (client.py:170 / udp.py defines no
`set_message_callback`), `asyncio.wait` returns at once (the punch task,
cancelled as the pending task, would need `punchAttempts` seconds), and
`receive_task.result()` re-raises the exception — `connect_to` raises
instead of returning any result dictionary. -/
theorem connectTo_raises_instead_of_timeout
    (self other : Node) (timeout : Nat) (incoming : List (Nat × String))
    (h : validatePrereqs self other true = true) :
    connectTo self other true timeout incoming = .error .attributeError ∧
    ∀ r : Res, connectTo self other true timeout incoming ≠ .ok r := by
  have hmain : connectTo self other true timeout incoming
      = .error .attributeError := by
    simp [connectTo, h, listenForConnection_dead, Nat.zero_le]
  refine ⟨hmain, fun r hr => ?_⟩
  rw [hmain] at hr
  cases hr

/-- Witness for `connectTo_raises_instead_of_timeout`: with timeout 2
and a silent peer (empty trace) the deadline elapses, yet no Timeout
failure is returned — the `AttributeError` propagates. -/
theorem connectTo_raises_instead_of_timeout_witness :
    connectTo { public_ip := some "1.2.3.4", public_port := some 40000 }
        { public_ip := some "5.6.7.8", public_port := some 50000 }
        true 2 [] = .error .attributeError ∧
    ∀ r : Res,
      connectTo { public_ip := some "1.2.3.4", public_port := some 40000 }
        { public_ip := some "5.6.7.8", public_port := some 50000 }
        true 2 [] ≠ .ok r :=
  connectTo_raises_instead_of_timeout _ _ 2 [] (by decide)


/-- C10: `join_network` and `leave_network` are idempotent.  A join while
already joined returns success and changes neither the client state (no
second endpoint is bound) nor the registry (no second insert); a fresh
successful join leaves exactly the upserted entry (one entry from an
empty registry) and one transport bound to `local_port`, and a second
join then changes nothing; a leave while not joined returns success and
changes nothing; a leave with the registry reachable succeeds; and the
second of two successive leaves always succeeds, whatever the outcomes
of the first. -/
theorem join_leave_idempotent
    (s : ClientState) (reg : Registry) (env env2 : JoinEnv) (del del2 : Http) :
    (s.serverStatus = true →
      joinNetwork s reg env
        = (s, reg, ⟨"success", "Already part of the network"⟩)) ∧
    (s.serverStatus = false → env.post = .ok → env.start = .ok →
      (joinNetwork s reg env).2.2.status = "success" ∧
      (joinNetwork s reg env).2.1 = registryUpsert reg s.node ∧
      (registryUpsert [] s.node).length = 1 ∧
      (joinNetwork s reg env).1.serverStatus = true ∧
      (joinNetwork s reg env).1.transportPort = some s.node.local_port ∧
      joinNetwork (joinNetwork s reg env).1 (joinNetwork s reg env).2.1 env2
        = ((joinNetwork s reg env).1, (joinNetwork s reg env).2.1,
           ⟨"success", "Already part of the network"⟩)) ∧
    (s.serverStatus = false →
      leaveNetwork s reg del
        = (s, reg, ⟨"success", "Not currently part of the network"⟩)) ∧
    (s.serverStatus = true → del = .ok →
      (leaveNetwork s reg del).2.2.status = "success") ∧
    (leaveNetwork (leaveNetwork s reg del).1 (leaveNetwork s reg del).2.1
        del2).2.2.status = "success" := by
  refine ⟨?_, ?_, ?_, ?_, ?_⟩
  · intro h
    simp [joinNetwork, h]
  · intro h hp hs
    obtain ⟨stun, post, osPort, start⟩ := env
    dsimp at hp hs
    subst hp
    subst hs
    simp [joinNetwork, startServer, pairTruthy, registryUpsert, h]
  · intro h
    simp [leaveNetwork, h]
  · intro h hd
    subst hd
    simp [leaveNetwork, stopServer, h]
  · cases hss : s.serverStatus with
    | false => simp [leaveNetwork, hss]
    | true => cases del <;> simp [leaveNetwork, stopServer, hss]

/-- Witness for `join_leave_idempotent`. -/
theorem join_leave_idempotent_witness :
    joinNetwork { node := {}, serverStatus := true } [] ⟨none, .ok, 1, .ok⟩
      = ({ node := {}, serverStatus := true }, [],
         ⟨"success", "Already part of the network"⟩) ∧
    (joinNetwork { node := {} } [] ⟨none, .ok, 1, .ok⟩).2.2.status
      = "success" ∧
    leaveNetwork { node := {} } [] .ok
      = ({ node := {} }, [],
         ⟨"success", "Not currently part of the network"⟩) ∧
    (leaveNetwork { node := {}, serverStatus := true } [] .ok).2.2.status
      = "success" ∧
    (leaveNetwork
        (leaveNetwork { node := {}, serverStatus := true } [] .ok).1
        (leaveNetwork { node := {}, serverStatus := true } [] .ok).2.1
        .ok).2.2.status = "success" :=
  ⟨(join_leave_idempotent { node := {}, serverStatus := true } []
      ⟨none, .ok, 1, .ok⟩ ⟨none, .ok, 1, .ok⟩ .ok .ok).1 rfl,
   ((join_leave_idempotent { node := {} } [] ⟨none, .ok, 1, .ok⟩
      ⟨none, .ok, 1, .ok⟩ .ok .ok).2.1 rfl rfl rfl).1,
   (join_leave_idempotent { node := {} } [] ⟨none, .ok, 1, .ok⟩
      ⟨none, .ok, 1, .ok⟩ .ok .ok).2.2.1 rfl,
   ((join_leave_idempotent { node := {}, serverStatus := true } []
      ⟨none, .ok, 1, .ok⟩ ⟨none, .ok, 1, .ok⟩ .ok .ok).2.2.2.1) rfl rfl,
   (join_leave_idempotent { node := {}, serverStatus := true } []
      ⟨none, .ok, 1, .ok⟩ ⟨none, .ok, 1, .ok⟩ .ok .ok).2.2.2.2⟩

end Fungi
